import Mathlib

set_option maxHeartbeats 1000000

/-!
Verification development for the SenseGrid home-security repository.

The definitions below are a shallow embedding of the alert/telemetry
coordination pipeline: the room/alert endpoints of src/backend/main.py, the
detector services of src/backend/services, and the Raspberry Pi controller of
src/hardware (pi_main.py, action_controller.py, config.py).  Python dicts are
modelled at lookup level as functions to Option; wall-clock readings are
explicit parameters (Nat for millisecond timestamps, Rat for the float
second-resolution clock of the hardware side); database commits are explicit
state passing.
-/

namespace SenseGrid

/-- Python dict assignment d[k] = v, viewed through lookups. -/
def dset {β : Type} (d : String → Option β) (k : String) (v : β) :
    String → Option β :=
  fun q => if q = k then some v else d q

/-- Python truthiness of an optional string (the result of cmd.get(...)):
None and the empty string are falsy, any other string is truthy. -/
def truthy : Option String → Bool
  | none => false
  | some s => s ≠ ""

/-- The fields of the CommandPayload.command dict that room_action and
device_command in src/backend/main.py read: cmd.get("sensor") and
cmd.get("value"). -/
structure Cmd where
  sensor : Option String
  value : Option String

/-- The per-room state touched by the room endpoints of src/backend/main.py:
the actions dict (stored as a JSON string, read back with json.loads, modelled
at lookup level) and the last_seen millisecond timestamp. -/
structure Room where
  actions : String → Option String
  last_seen : Nat

/-- Body of room_action in src/backend/main.py (POST /rooms/.../action) for
the case where the room was found for the calling user: when both
cmd.get("sensor") and cmd.get("value") are truthy the actions dict gains the
binding, and last_seen is overwritten with the current wall-clock time `now`
unconditionally, with no comparison against the stored value. -/
def room_action (r : Room) (c : Cmd) (now : Nat) : Room :=
  let r1 :=
    match c.sensor, c.value with
    | some s, some v =>
        if s ≠ "" ∧ v ≠ "" then { r with actions := dset r.actions s v } else r
    | _, _ => r
  { r1 with last_seen := now }

/-- A sequence of room_action calls on one room, each paired with the
wall-clock time at which it executed. -/
def applyRoomActions (r : Room) (calls : List (Cmd × Nat)) : Room :=
  calls.foldl (fun acc p => room_action acc p.1 p.2) r

/-- A room with an empty actions dict, used as a concrete starting state. -/
def room0 : Room := { actions := fun _ => none, last_seen := 0 }

/-- A concrete truthy command payload. -/
def cmd0 : Cmd := { sensor := some "temperature", value := some "ON" }

theorem applyRoomActions_concat (r : Room) (calls : List (Cmd × Nat))
    (p : Cmd × Nat) :
    applyRoomActions r (calls ++ [p]) =
      room_action (applyRoomActions r calls) p.1 p.2 := by
  simp [applyRoomActions, List.foldl_append]

theorem room_action_last_seen (r : Room) (c : Cmd) (now : Nat) :
    (room_action r c now).last_seen = now := rfl

/-- C1: the claim asserts that lastSeen is monotonically non-decreasing and
that a call carrying an older wall-clock reading than the stored lastSeen
leaves it unchanged.  In the code, room_action overwrites last_seen with the
current time unconditionally: starting from room0, a call at time 100 followed
by a call at time 50 leaves last_seen = 50, strictly below the previously
stored 100, so the second call both regressed lastSeen and changed it. -/
theorem C1_counterexample :
    (applyRoomActions room0 [(cmd0, 100), (cmd0, 50)]).last_seen = 50 ∧
    (applyRoomActions room0 [(cmd0, 100)]).last_seen = 100 ∧
    ¬ (applyRoomActions room0 [(cmd0, 100)]).last_seen ≤
        (applyRoomActions room0 [(cmd0, 100), (cmd0, 50)]).last_seen := by
  refine ⟨rfl, rfl, by decide⟩

/-- C1 (amended): every room_action call overwrites the stored lastSeen with
that call's wall-clock time, so after any nonempty sequence of calls (written
init ++ [p], with p the final call) the stored lastSeen equals the final
call's timestamp; when the calls' timestamps are non-decreasing this is the
maximum timestamp seen.  No comparison against the stored value is performed,
so a call with an older timestamp overwrites rather than being ignored. -/
theorem C1_last_seen_is_final_timestamp (r : Room) (init : List (Cmd × Nat))
    (p : Cmd × Nat) (calls : List (Cmd × Nat)) (hc : calls = init ++ [p])
    (hmono : (calls.map Prod.snd).Pairwise (· ≤ ·)) :
    (applyRoomActions r calls).last_seen = p.2 ∧
    p.2 ∈ calls.map Prod.snd ∧
    ∀ t ∈ calls.map Prod.snd, t ≤ p.2 := by
  subst hc
  refine ⟨by rw [applyRoomActions_concat]; rfl, by simp, ?_⟩
  rw [List.map_append] at hmono ⊢
  have hub := (List.pairwise_append.mp hmono).2.2
  intro t ht
  rcases List.mem_append.mp ht with h1 | h2
  · exact hub t h1 p.2 (by simp)
  · simp at h2
    omega

/-- Witness for C1_last_seen_is_final_timestamp at a concrete call list. -/
theorem C1_last_seen_witness :
    (applyRoomActions room0 [(cmd0, 10), (cmd0, 20)]).last_seen = 20 ∧
    20 ∈ ([(cmd0, 10), (cmd0, 20)].map Prod.snd) ∧
    ∀ t ∈ ([(cmd0, 10), (cmd0, 20)].map Prod.snd), t ≤ 20 :=
  C1_last_seen_is_final_timestamp room0 [(cmd0, 10)] (cmd0, 20)
    [(cmd0, 10), (cmd0, 20)] rfl (by decide)

/-- C9: two room_action calls on the same room that set different actuators
both persist in the actions dict, in whichever order the two calls serialize
(the handler performs its read-modify-write of the actions dict with no
intervening suspension point, so concurrent requests on the event loop
execute it atomically in some order). -/
theorem C9_no_lost_update (r : Room) (a b va vb : String) (t1 t2 : Nat)
    (hab : a ≠ b) (ha : a ≠ "") (hb : b ≠ "") (hva : va ≠ "") (hvb : vb ≠ "") :
    ((room_action (room_action r ⟨some a, some va⟩ t1)
        ⟨some b, some vb⟩ t2).actions a = some va ∧
     (room_action (room_action r ⟨some a, some va⟩ t1)
        ⟨some b, some vb⟩ t2).actions b = some vb) ∧
    ((room_action (room_action r ⟨some b, some vb⟩ t2)
        ⟨some a, some va⟩ t1).actions a = some va ∧
     (room_action (room_action r ⟨some b, some vb⟩ t2)
        ⟨some a, some va⟩ t1).actions b = some vb) := by
  simp [room_action, dset, ha, hb, hva, hvb, hab, Ne.symm hab]

/-- Witness for C9_no_lost_update at concrete actuators fan and light. -/
theorem C9_no_lost_update_witness :
    ((room_action (room_action room0 ⟨some "fan", some "ON"⟩ 1)
        ⟨some "light", some "OFF"⟩ 2).actions "fan" = some "ON" ∧
     (room_action (room_action room0 ⟨some "fan", some "ON"⟩ 1)
        ⟨some "light", some "OFF"⟩ 2).actions "light" = some "OFF") ∧
    ((room_action (room_action room0 ⟨some "light", some "OFF"⟩ 2)
        ⟨some "fan", some "ON"⟩ 1).actions "fan" = some "ON" ∧
     (room_action (room_action room0 ⟨some "light", some "OFF"⟩ 2)
        ⟨some "fan", some "ON"⟩ 1).actions "light" = some "OFF") :=
  C9_no_lost_update room0 "fan" "light" "ON" "OFF" 1 2
    (by decide) (by decide) (by decide) (by decide) (by decide)

/-- One detection as produced by the detector services and consumed by
detect_intruder in src/backend/main.py: class label and confidence.  (The
bbox coordinates are carried along unchanged by every claim-relevant path and
are omitted.) -/
structure Detection where
  cls : String
  confidence : ℚ
deriving DecidableEq

/-- One raw prediction from the Roboflow workflow response, as read by
RoboflowDetector.detect: pred.get("class") (None when absent) and
pred.get("confidence", 0). -/
structure Pred where
  cls : Option String
  confidence : ℚ

/-- Classes kept by RoboflowDetector.detect in
src/backend/services/roboflow_detector.py (the local variable
target_classes inside detect). -/
def roboflow_target_classes : List String := ["Human", "Animal"]

/-- Filtering loop of RoboflowDetector.detect: a prediction is kept when its
class is in target_classes and its confidence is at least min_confidence. -/
def roboflow_detect (min_confidence : ℚ) (preds : List Pred) : List Detection :=
  preds.filterMap fun p =>
    match p.cls with
    | some c =>
        if c ∈ roboflow_target_classes ∧ min_confidence ≤ p.confidence then
          some { cls := c, confidence := p.confidence }
        else none
    | none => none

/-- Filtering loop of LocalYOLODetector.detect_from_frame in
src/backend/services/local_yolo_detector.py: each inference box carries a
label (model.names of its class id) and a confidence; only boxes labelled
Human are returned. -/
def yolo_detect_from_frame (boxes : List (String × ℚ)) : List Detection :=
  boxes.filterMap fun b =>
    if b.1 = "Human" then some { cls := b.1, confidence := b.2 } else none

/-- An Alert row of the database (src/backend/database.py fields as used by
src/backend/main.py). -/
structure Alert where
  alert_id : String
  home_id : String
  snapshot_url : Option String
  ts : Nat
  resolved : Bool
  user_id : Nat
deriving DecidableEq

/-- Backend state touched by the alert endpoints: the alerts table and the
ordered list of Socket.IO event names emitted so far. -/
structure BackendState where
  alerts : List Alert
  events : List String
deriving DecidableEq

/-- An empty backend state. -/
def backend0 : BackendState := { alerts := [], events := [] }

/-- HTTP error raised to the caller (HTTPException status code and detail). -/
structure HttpError where
  code : Nat
  detail : String
deriving DecidableEq

/-- JSON body returned by detect_intruder on success. -/
structure DetectResponse where
  intruder_detected : Bool
  detections : List Detection
  alert_id : Option String
  detection_count : Nat
deriving DecidableEq

/-- Tail of detect_intruder in src/backend/main.py (POST /intruder/detect),
from the detector invocation onward.  The detector call either yields a list
of detections or raises; a raise is answered with HTTPException 400
"Detection failed: ...".  On success, a nonempty detection list creates one
alert (id derived from the millisecond clock, home_id the caller's email),
commits it, and emits one Socket.IO event named intruder:alert; an empty list
changes nothing. -/
def detect_intruder (st : BackendState) (userEmail : String) (userId : Nat)
    (detectorResult : Except String (List Detection)) (now : Nat) :
    BackendState × Except HttpError DetectResponse :=
  match detectorResult with
  | .error e =>
      (st, .error { code := 400, detail := "Detection failed: " ++ e })
  | .ok detections =>
      if detections.length > 0 then
        let aid := "alert-" ++ toString now
        ({ alerts := st.alerts ++
              [{ alert_id := aid, home_id := userEmail, snapshot_url := none,
                 ts := now, resolved := false, user_id := userId }],
           events := st.events ++ ["intruder:alert"] },
         .ok { intruder_detected := true, detections := detections,
               alert_id := some aid, detection_count := detections.length })
      else
        (st, .ok { intruder_detected := false, detections := detections,
                   alert_id := none, detection_count := detections.length })

/-- Resolution step of alert_action: db.query(...).first() finds the first
alert of the calling user with the given id; when found its resolved flag is
set to True; nothing else in the table is touched. -/
def resolveFirst (uid : Nat) (aid : String) : List Alert → List Alert
  | [] => []
  | a :: rest =>
      if a.user_id = uid ∧ a.alert_id = aid then
        { a with resolved := true } :: rest
      else
        a :: resolveFirst uid aid rest

/-- JSON body returned by alert_action. -/
structure ActionResponse where
  status : String
  alertId : String
  action : String
deriving DecidableEq

/-- Body of alert_action in src/backend/main.py (POST /alerts/.../action):
resolves the first matching alert of the calling user when one exists, always
emits one alert:processed event, and always answers status ok. -/
def alert_action (st : BackendState) (uid : Nat) (aid : String)
    (act : String) : BackendState × ActionResponse :=
  ({ alerts := resolveFirst uid aid st.alerts,
     events := st.events ++ ["alert:processed"] },
   { status := "ok", alertId := aid, action := act })

/-- C3: the claim asserts that a detector raise is swallowed and answered as
a normal empty-detections result.  In the code the raise is re-raised as
HTTPException 400, so the concrete call below propagates a failure to the
caller instead of returning a normal result. -/
theorem C3_counterexample :
    (detect_intruder backend0 "pi@sensegrid.local" 1
        (Except.error "boom") 5).2 =
      Except.error { code := 400, detail := "Detection failed: boom" } ∧
    (detect_intruder backend0 "pi@sensegrid.local" 1
        (Except.error "boom") 5).1 = backend0 := by
  exact ⟨rfl, rfl⟩

/-- C3 (amended): when the detector raises, detect_intruder answers the
caller with HTTPException 400 whose detail is prefixed "Detection failed:",
leaving the backend state unchanged (no alert, no event); the failure is
surfaced as an error, never converted into an empty detection result, so it
is distinguishable from a true negative. -/
theorem C3_detector_failure_propagates (st : BackendState) (u : String)
    (uid : Nat) (e : String) (now : Nat) :
    detect_intruder st u uid (Except.error e) now =
      (st, Except.error { code := 400, detail := "Detection failed: " ++ e }) :=
  rfl

/-- C4: evaluation at the failing input.  A Roboflow prediction list whose
only entry is class Animal with confidence 9/10 passes the detector's filter
(its target_classes include Animal), and detect_intruder then creates an
alert from it and reports intruder_detected, although the claim (and the
detector's own docstring, and the configured target_classes = only Human of
src/hardware/config.py) say non-target classes must never produce an Alert.
The local YOLO detector, by contrast, drops the same detection. -/
theorem C4_animal_only_creates_alert :
    roboflow_detect (1/2) [{ cls := some "Animal", confidence := 9/10 }] =
      [{ cls := "Animal", confidence := 9/10 }] ∧
    (detect_intruder backend0 "u@example.com" 1
        (Except.ok [{ cls := "Animal", confidence := 9/10 }]) 7).1.alerts =
      [{ alert_id := "alert-7", home_id := "u@example.com",
         snapshot_url := none, ts := 7, resolved := false, user_id := 1 }] ∧
    (detect_intruder backend0 "u@example.com" 1
        (Except.ok [{ cls := "Animal", confidence := 9/10 }]) 7).2 =
      Except.ok { intruder_detected := true,
                  detections := [{ cls := "Animal", confidence := 9/10 }],
                  alert_id := some "alert-7", detection_count := 1 } ∧
    yolo_detect_from_frame [("Animal", 9/10)] = [] := by
  refine ⟨?_, rfl, rfl, rfl⟩
  norm_num [roboflow_detect, roboflow_target_classes, List.filterMap_cons]

theorem resolveFirst_of_no_match {uid : Nat} {aid : String} {l : List Alert}
    (h : ∀ a ∈ l, ¬(a.user_id = uid ∧ a.alert_id = aid)) :
    resolveFirst uid aid l = l := by
  induction l with
  | nil => rfl
  | cons a rest ih =>
      rw [resolveFirst, if_neg (h a (by simp))]
      rw [ih (fun b hb => h b (by simp [hb]))]

theorem resolveFirst_of_resolved {uid : Nat} {aid : String} {l : List Alert}
    (h : ∀ a ∈ l, a.user_id = uid → a.alert_id = aid → a.resolved = true) :
    resolveFirst uid aid l = l := by
  induction l with
  | nil => rfl
  | cons a rest ih =>
      rw [resolveFirst]
      by_cases hm : a.user_id = uid ∧ a.alert_id = aid
      · rw [if_pos hm]
        have : a.resolved = true := h a (by simp) hm.1 hm.2
        cases a
        simp_all
      · rw [if_neg hm, ih (fun b hb => h b (by simp [hb]))]

/-- C6: the claim asserts that resolveAlert answers failure/false when the
alert id does not exist for the calling user.  In the code alert_action has
no failure branch: with a single unresolved alert alert-1 owned by user 1, a
call naming the nonexistent id nope still answers status ok (and emits an
alert:processed event), leaving the table unchanged. -/
theorem C6_counterexample :
    (alert_action
      { alerts := [{ alert_id := "alert-1", home_id := "h", snapshot_url := none,
                     ts := 3, resolved := false, user_id := 1 }], events := [] }
      1 "nope" "allow").2.status = "ok" ∧
    (alert_action
      { alerts := [{ alert_id := "alert-1", home_id := "h", snapshot_url := none,
                     ts := 3, resolved := false, user_id := 1 }], events := [] }
      1 "nope" "allow").1.alerts =
      [{ alert_id := "alert-1", home_id := "h", snapshot_url := none,
         ts := 3, resolved := false, user_id := 1 }] := by
  exact ⟨rfl, by decide⟩

/-- C6 (amended): alert_action always answers status ok, whether or not the
alert exists or is already resolved; when no alert of the calling user has
the given id the table is unchanged, and when every matching alert is already
resolved the table is likewise unchanged (re-resolving is the identity).  In
those cases the resolved state of every alert is unchanged by the call. -/
theorem C6_resolve_missing_or_resolved (st : BackendState) (uid : Nat)
    (aid act : String) :
    ((alert_action st uid aid act).2.status = "ok") ∧
    ((∀ a ∈ st.alerts, ¬(a.user_id = uid ∧ a.alert_id = aid)) →
      (alert_action st uid aid act).1.alerts = st.alerts) ∧
    ((∀ a ∈ st.alerts, a.user_id = uid → a.alert_id = aid → a.resolved = true) →
      (alert_action st uid aid act).1.alerts = st.alerts) := by
  refine ⟨rfl, ?_, ?_⟩
  · intro h
    exact resolveFirst_of_no_match h
  · intro h
    exact resolveFirst_of_resolved h

/-- Witness for C6_resolve_missing_or_resolved on a table with one resolved
alert targeted by the call. -/
theorem C6_resolve_witness :
    ((alert_action
        { alerts := [{ alert_id := "alert-2", home_id := "h", snapshot_url := none,
                       ts := 4, resolved := true, user_id := 2 }], events := [] }
        2 "alert-2" "deny").2.status = "ok") ∧
    ((alert_action
        { alerts := [{ alert_id := "alert-2", home_id := "h", snapshot_url := none,
                       ts := 4, resolved := true, user_id := 2 }], events := [] }
        2 "alert-2" "deny").1.alerts =
      [{ alert_id := "alert-2", home_id := "h", snapshot_url := none,
         ts := 4, resolved := true, user_id := 2 }]) :=
  ⟨(C6_resolve_missing_or_resolved _ 2 "alert-2" "deny").1,
   (C6_resolve_missing_or_resolved _ 2 "alert-2" "deny").2.2 (by decide)⟩

/-- Truncation applied by hash_password and verify_password in
src/backend/main.py: the UTF-8 byte sequence of the password is cut to its
first 72 bytes when longer.  Passwords are modelled as their byte sequences;
bcrypt is the external collaborator, passed in as hashpw and checkpw (the
latter returning none when it raises, which verify_password turns into
False). -/
def truncate72 (b : List Nat) : List Nat :=
  if b.length > 72 then b.take 72 else b

/-- hash_password of src/backend/main.py over password bytes, with bcrypt's
hashpw (salt included) abstract. -/
def hash_password (hashpw : List Nat → List Nat) (password : List Nat) :
    List Nat :=
  hashpw (truncate72 password)

/-- verify_password of src/backend/main.py over byte sequences: truncates the
plaintext to 72 bytes, calls bcrypt's checkpw, and returns False if checkpw
raises. -/
def verify_password (checkpw : List Nat → List Nat → Option Bool)
    (plain hashed : List Nat) : Bool :=
  match checkpw (truncate72 plain) hashed with
  | some r => r
  | none => false

theorem truncate72_eq_of_take_eq {b1 b2 : List Nat}
    (h : b1.take 72 = b2.take 72) : truncate72 b1 = truncate72 b2 := by
  have hlen : min 72 b1.length = min 72 b2.length := by
    have := congrArg List.length h
    simpa [List.length_take] using this
  unfold truncate72
  rcases le_or_lt b1.length 72 with h1 | h1 <;>
    rcases le_or_lt b2.length 72 with h2 | h2
  · rw [List.take_of_length_le h1, List.take_of_length_le h2] at h
    simp [not_lt.mpr h1, not_lt.mpr h2, h]
  · have : b1.length = 72 := by omega
    rw [if_neg (by omega), if_pos h2, ← h, List.take_of_length_le (by omega)]
  · have : b2.length = 72 := by omega
    rw [if_pos h1, if_neg (by omega), h, List.take_of_length_le (by omega)]
  · rw [if_pos h1, if_pos h2]
    exact h

/-- C10: verify_password depends only on the first 72 bytes of the plaintext:
whenever two passwords' byte sequences agree on their first 72 bytes they
verify identically against every stored hash and every behaviour of bcrypt;
consequently a user registered (via hash_password) with a password longer
than 72 bytes can authenticate with any password sharing those first 72
bytes, as soon as bcrypt accepts the registered password itself. -/
theorem C10_verify_first72 (checkpw : List Nat → List Nat → Option Bool)
    (hashpw : List Nat → List Nat) (p1 p2 hashed : List Nat)
    (h : p1.take 72 = p2.take 72) :
    verify_password checkpw p1 hashed = verify_password checkpw p2 hashed ∧
    (checkpw (truncate72 p1) (hash_password hashpw p1) = some true →
      verify_password checkpw p2 (hash_password hashpw p1) = true) := by
  have ht := truncate72_eq_of_take_eq h
  constructor
  · unfold verify_password
    rw [ht]
  · intro hck
    unfold verify_password
    rw [← ht, hck]

/-- Witness for C10_verify_first72: a 73-byte password and a different
password agreeing on the first 72 bytes, with a concrete bcrypt model. -/
theorem C10_verify_witness :
    (verify_password (fun b hsh => some (decide (b = hsh)))
        (List.replicate 73 65) (List.replicate 72 65) =
      verify_password (fun b hsh => some (decide (b = hsh)))
        (List.replicate 72 65 ++ [66]) (List.replicate 72 65)) ∧
    verify_password (fun b hsh => some (decide (b = hsh)))
        (List.replicate 72 65 ++ [66])
        (hash_password id (List.replicate 73 65)) = true :=
  ⟨(C10_verify_first72 (fun b hsh => some (decide (b = hsh))) id
      (List.replicate 73 65) (List.replicate 72 65 ++ [66])
      (List.replicate 72 65) (by decide)).1,
   (C10_verify_first72 (fun b hsh => some (decide (b = hsh))) id
      (List.replicate 73 65) (List.replicate 72 65 ++ [66])
      (List.replicate 72 65) (by decide)).2 (by decide)⟩

/-- GPIO relay configuration of src/hardware/config.py
(ActionControllerConfig): the actuator names that have a pin, and their
initial states. -/
structure ACConfig where
  relay_pins : List String
  initial_states : String → Bool

/-- Default ActionControllerConfig of src/hardware/config.py: relays fan,
buzzer and light, all initially OFF. -/
def defaultACConfig : ACConfig :=
  { relay_pins := ["fan", "buzzer", "light"],
    initial_states := fun _ => false }

/-- State of an ActionController (src/hardware/action_controller.py): the
initialized flag, the _states dict, and the pending threading.Timer reverts,
each recorded as (actuator name, absolute fire time in seconds, state the
revert will set).  The mock-GPIO driver always succeeds, so initialize
returns True whenever it runs. -/
structure ACState where
  initialized : Bool
  states : String → Option Bool
  timers : List (String × ℚ × Bool)

/-- A freshly constructed controller, before initialize. -/
def acState0 : ACState :=
  { initialized := false, states := fun _ => none, timers := [] }

/-- ActionController.initialize: configures every relay pin with its initial
state; a second call is a no-op. -/
def ac_init (cfg : ACConfig) (st : ACState) : ACState :=
  if st.initialized then st
  else
    { initialized := true,
      states := fun n =>
        if n ∈ cfg.relay_pins then some (cfg.initial_states n) else none,
      timers := st.timers }

/-- ActionController.get_state: reads the _states dict (None for an unknown
actuator). -/
def get_state (st : ACState) (name : String) : Option Bool :=
  st.states name

/-- ActionController.set_state: lazily initializes, answers False for an
actuator without a configured pin, otherwise cancels any pending timer for
that actuator and records the new state, answering True. -/
def set_state (cfg : ACConfig) (st : ACState) (name : String) (b : Bool) :
    ACState × Bool :=
  let st1 := if st.initialized then st else ac_init cfg st
  if name ∈ cfg.relay_pins then
    ({ st1 with
        states := dset st1.states name b,
        timers := st1.timers.filter (fun tr => tr.1 != name) }, true)
  else (st1, false)

/-- ActionController.set_timed: applies set_state, and on success cancels any
pending timer for the actuator once more and schedules a single revert to the
complementary state, firing `dur` seconds from now. -/
def set_timed (cfg : ACConfig) (st : ACState) (name : String) (b : Bool)
    (dur now : ℚ) : ACState × Bool :=
  match set_state cfg st name b with
  | (st1, false) => (st1, false)
  | (st1, true) =>
      ({ st1 with
          timers := st1.timers.filter (fun tr => tr.1 != name) ++
            [(name, now + dur, !b)] }, true)

/-- ActionController.trigger_alarm: sugar for set_timed on the buzzer. -/
def trigger_alarm (cfg : ACConfig) (st : ACState) (dur now : ℚ) :
    ACState × Bool :=
  set_timed cfg st "buzzer" true dur now

/-- The revert closure scheduled by set_timed: when the timer fires it
removes its own entry and applies set_state with the recorded revert
state; a cancelled timer never runs. -/
def fire_timer (cfg : ACConfig) (st : ACState) (name : String) : ACState :=
  match st.timers.find? (fun tr => tr.1 == name) with
  | none => st
  | some tr =>
      (set_state cfg
        { st with timers := st.timers.filter (fun t2 => t2.1 != name) }
        name tr.2.2).1

/-- One call into the ActionController. -/
inductive ACOp where
  | setState (name : String) (b : Bool)
  | setTimed (name : String) (b : Bool) (dur now : ℚ)
  | alarm (dur now : ℚ)
  | fire (name : String)

/-- Effect of one ActionController call on the state. -/
def ac_step (cfg : ACConfig) (st : ACState) : ACOp → ACState
  | .setState n b => (set_state cfg st n b).1
  | .setTimed n b d t => (set_timed cfg st n b d t).1
  | .alarm d t => (trigger_alarm cfg st d t).1
  | .fire n => fire_timer cfg st n

/-- A sequence of ActionController calls. -/
def ac_run (cfg : ACConfig) (st : ACState) (ops : List ACOp) : ACState :=
  ops.foldl (ac_step cfg) st

theorem filter_bne_names {name : String} {l : List (String × ℚ × Bool)} :
    ∀ tr ∈ l.filter (fun tr => tr.1 != name), tr.1 ≠ name := by
  intro tr htr
  have := (List.mem_filter.mp htr).2
  simpa [bne] using this

theorem nodup_names_filter {name : String} {l : List (String × ℚ × Bool)}
    (h : (l.map (fun tr => tr.1)).Nodup) :
    ((l.filter (fun tr => tr.1 != name)).map (fun tr => tr.1)).Nodup :=
  h.sublist ((List.filter_sublist l).map _)

theorem nodup_names_cancel_insert {name : String} {t : ℚ} {b : Bool}
    {l : List (String × ℚ × Bool)} (h : (l.map (fun tr => tr.1)).Nodup) :
    (((l.filter (fun tr => tr.1 != name) ++ [(name, t, b)]).map
        (fun tr => tr.1)).Nodup) := by
  rw [List.map_append]
  apply List.Nodup.append (nodup_names_filter h) (by simp)
  intro x hx hx2
  simp at hx2
  rcases List.mem_map.mp hx with ⟨tr, htr, rfl⟩
  exact filter_bne_names tr htr hx2

theorem ac_step_nodup (cfg : ACConfig) (st : ACState) (op : ACOp)
    (h : (st.timers.map (fun tr => tr.1)).Nodup) :
    ((ac_step cfg st op).timers.map (fun tr => tr.1)).Nodup := by
  have hinit : ((if st.initialized then st else ac_init cfg st).timers.map
      (fun tr => tr.1)).Nodup := by
    by_cases hi : st.initialized <;> simp [hi, ac_init, h]
  cases op with
  | setState n b =>
      simp only [ac_step, set_state]
      by_cases hm : n ∈ cfg.relay_pins
      · simp only [if_pos hm]
        exact nodup_names_filter hinit
      · simp only [if_neg hm]
        exact hinit
  | setTimed n b d t =>
      simp only [ac_step, set_timed, set_state]
      by_cases hm : n ∈ cfg.relay_pins
      · simp only [if_pos hm]
        exact nodup_names_cancel_insert (nodup_names_filter hinit)
      · simp only [if_neg hm]
        exact hinit
  | alarm d t =>
      simp only [ac_step, trigger_alarm, set_timed, set_state]
      by_cases hm : "buzzer" ∈ cfg.relay_pins
      · simp only [if_pos hm]
        exact nodup_names_cancel_insert (nodup_names_filter hinit)
      · simp only [if_neg hm]
        exact hinit
  | fire n =>
      simp only [ac_step, fire_timer]
      cases hf : st.timers.find? (fun tr => tr.1 == n) with
      | none => exact h
      | some tr =>
          simp only [set_state]
          have h2 : ((st.timers.filter (fun t2 => t2.1 != n)).map
              (fun t2 => t2.1)).Nodup := nodup_names_filter h
          by_cases hi : st.initialized <;>
            by_cases hm : n ∈ cfg.relay_pins <;>
            simp [hi, hm, ac_init, nodup_names_filter, h2]

theorem ac_run_nodup (cfg : ACConfig) (ops : List ACOp) :
    ((ac_run cfg acState0 ops).timers.map (fun tr => tr.1)).Nodup := by
  suffices hgen : ∀ (l : List ACOp) (st : ACState),
      (st.timers.map (fun tr => tr.1)).Nodup →
      ((ac_run cfg st l).timers.map (fun tr => tr.1)).Nodup by
    exact hgen ops acState0 (by simp [acState0])
  intro l
  induction l with
  | nil => intro st h; exact h
  | cons op rest ih =>
      intro st h
      exact ih (ac_step cfg st op) (ac_step_nodup cfg st op h)

theorem filter_beq_cancel_insert (name : String) (e : String × ℚ × Bool)
    (he : e.1 = name) (l : List (String × ℚ × Bool)) :
    (l.filter (fun tr => tr.1 != name) ++ [e]).filter
      (fun tr => tr.1 == name) = [e] := by
  rw [List.filter_append]
  have h1 : (l.filter (fun tr => tr.1 != name)).filter
      (fun tr => tr.1 == name) = [] := by
    rw [List.filter_eq_nil_iff]
    intro tr htr
    have := filter_bne_names tr htr
    simp [this]
  rw [h1]
  simp [List.filter, he]

/-- C5: (i) starting from a fresh controller, any sequence of set_state,
set_timed, trigger_alarm and timer-fire steps leaves at most one pending
revert per actuator (the pending-timer names are duplicate-free); (ii)
set_state on a configured actuator cancels every pending revert for it;
(iii) set_timed on a configured actuator followed immediately by a second
set_timed leaves exactly one pending revert for it, firing at now + d2, and
(iv) every pending revert for that actuator fires at now + d2 — hence never
at now + d1 when the durations differ. -/
theorem C5_single_pending_revert (cfg : ACConfig) (st : ACState)
    (name : String) (s b : Bool) (d1 d2 now : ℚ)
    (hmem : name ∈ cfg.relay_pins) :
    (∀ ops : List ACOp,
      ((ac_run cfg acState0 ops).timers.map (fun tr => tr.1)).Nodup) ∧
    (∀ tr ∈ (set_state cfg st name b).1.timers, tr.1 ≠ name) ∧
    ((set_timed cfg (set_timed cfg st name s d1 now).1 name s d2
        now).1.timers.filter (fun tr => tr.1 == name) =
      [(name, now + d2, !s)]) ∧
    (∀ tr ∈ (set_timed cfg (set_timed cfg st name s d1 now).1 name s d2
        now).1.timers, tr.1 = name → tr.2.1 = now + d2) := by
  have hshape : ∃ l : List (String × ℚ × Bool),
      (set_timed cfg (set_timed cfg st name s d1 now).1 name s d2
        now).1.timers =
      l.filter (fun tr => tr.1 != name) ++ [(name, now + d2, !s)] := by
    simp only [set_timed, set_state, if_pos hmem]
    exact ⟨_, rfl⟩
  refine ⟨ac_run_nodup cfg, ?_, ?_, ?_⟩
  · intro tr htr
    simp only [set_state, if_pos hmem] at htr
    exact filter_bne_names tr htr
  · rcases hshape with ⟨l, hl⟩
    rw [hl]
    exact filter_beq_cancel_insert name (name, now + d2, !s) rfl l
  · rcases hshape with ⟨l, hl⟩
    rw [hl]
    intro tr htr hname
    rcases List.mem_append.mp htr with h1 | h2
    · exact absurd hname (filter_bne_names tr h1)
    · simp at h2
      rw [h2]

/-- Witness for C5_single_pending_revert: two immediate timed holds of the
buzzer, 5 s then 10 s, leave one pending revert firing at +10 s. -/
theorem C5_single_pending_witness :
    "buzzer" ∈ defaultACConfig.relay_pins ∧
    ((set_timed defaultACConfig
        (set_timed defaultACConfig acState0 "buzzer" true 5 0).1
        "buzzer" true 10 0).1.timers.filter (fun tr => tr.1 == "buzzer") =
      [("buzzer", (0 : ℚ) + 10, false)]) :=
  ⟨by decide,
   (C5_single_pending_revert defaultACConfig acState0 "buzzer" true true 5 10 0
      (by decide)).2.2.1⟩

/-- One parsed Arduino reading (src/hardware/sensor_bridge.py SensorData). -/
structure SensorData where
  temperature : ℚ
  humidity : ℚ
  gas : ℚ
  flame : ℚ
  distance : ℚ
  timestamp : ℚ

/-- DetectionConfig of src/hardware/config.py. -/
structure DetectionConfig where
  confidence_threshold : ℚ
  alert_cooldown : ℚ
  target_classes : List String
  trigger_buzzer : Bool
  buzzer_duration : ℚ

/-- Default DetectionConfig of src/hardware/config.py: confidence 0.5,
cooldown 60 s, target classes only Human, buzzer auto-action on with a 5 s
duration. -/
def defaultDetectionConfig : DetectionConfig :=
  { confidence_threshold := 1/2, alert_cooldown := 60,
    target_classes := ["Human"], trigger_buzzer := true,
    buzzer_duration := 5 }

/-- A command issued by the pi controller to the ActionController. -/
inductive AutoCmd where
  | setSt (name : String) (b : Bool)
  | alarm (dur : ℚ)
deriving DecidableEq

/-- SenseGridPiController, method _check_auto_actions of
src/hardware/pi_main.py: in order, gas over 350 turns the fan on unless
get_state("fan") is already truthy; flame equal to 1 triggers the alarm with
the literal duration 10.0; temperature over 35 turns the fan on unless
get_state("fan") is truthy at that point.  Returns the controller state after
the calls together with the list of calls issued. -/
def check_auto_actions (cfg : ACConfig) (st : ACState) (data : SensorData)
    (now : ℚ) : ACState × List AutoCmd :=
  let p1 : ACState × List AutoCmd :=
    if 350 < data.gas then
      if get_state st "fan" ≠ some true then
        ((set_state cfg st "fan" true).1, [AutoCmd.setSt "fan" true])
      else (st, [])
    else (st, [])
  let p2 : ACState × List AutoCmd :=
    if data.flame = 1 then
      ((trigger_alarm cfg p1.1 10 now).1, p1.2 ++ [AutoCmd.alarm 10])
    else p1
  if 35 < data.temperature then
    if get_state p2.1 "fan" ≠ some true then
      ((set_state cfg p2.1 "fan" true).1, p2.2 ++ [AutoCmd.setSt "fan" true])
    else p2
  else p2

/-- Count of set_state calls that target the fan in a command list. -/
def fanSetCount (cmds : List AutoCmd) : Nat :=
  (cmds.filter (fun c =>
    match c with
    | .setSt n _ => n == "fan"
    | .alarm _ => false)).length

theorem set_state_initialized (cfg : ACConfig) (st : ACState) (n : String)
    (b : Bool) (hinit : st.initialized = true) :
    (set_state cfg st n b).1.initialized = true := by
  by_cases hm : n ∈ cfg.relay_pins <;> simp [set_state, hm, hinit]

theorem get_state_after_set_fan (cfg : ACConfig) (st : ACState)
    (hmem : "fan" ∈ cfg.relay_pins) :
    get_state (set_state cfg st "fan" true).1 "fan" = some true := by
  simp [get_state, set_state, hmem, dset]

theorem get_state_fan_after_alarm (cfg : ACConfig) (st : ACState)
    (dur now : ℚ) (hinit : st.initialized = true) :
    get_state (trigger_alarm cfg st dur now).1 "fan" = get_state st "fan" := by
  by_cases hb : "buzzer" ∈ cfg.relay_pins <;>
    simp [trigger_alarm, set_timed, set_state, hb, hinit, get_state, dset]

/-- C7: the fan auto-action is idempotent at command level.  On an
initialized controller whose relay table knows the fan (as in the shipped
config): when get_state("fan") is already True, no set_state call targeting
the fan is issued regardless of the gas and temperature values; when the fan
is not on and gas exceeds 350 or temperature exceeds 35, exactly one fan
set_state call is issued (the second threshold check sees the state already
updated by the first); when neither threshold is exceeded no fan call is
issued. -/
theorem C7_fan_idempotent (cfg : ACConfig) (st : ACState) (data : SensorData)
    (now : ℚ) (hmem : "fan" ∈ cfg.relay_pins)
    (hinit : st.initialized = true) :
    (get_state st "fan" = some true →
      fanSetCount (check_auto_actions cfg st data now).2 = 0) ∧
    (get_state st "fan" ≠ some true →
      (350 < data.gas ∨ 35 < data.temperature) →
      fanSetCount (check_auto_actions cfg st data now).2 = 1) ∧
    (¬ 350 < data.gas → ¬ 35 < data.temperature →
      fanSetCount (check_auto_actions cfg st data now).2 = 0) := by
  have halarm := get_state_fan_after_alarm cfg st 10 now hinit
  refine ⟨?_, ?_, ?_⟩
  · intro hon
    by_cases hg : 350 < data.gas <;> by_cases hf : data.flame = 1 <;>
      by_cases ht : 35 < data.temperature <;>
      simp [check_auto_actions, hg, hf, ht, hon, halarm, fanSetCount]
  · intro hoff hth
    by_cases hg : 350 < data.gas
    · have h1 : get_state (set_state cfg st "fan" true).1 "fan" = some true :=
        get_state_after_set_fan cfg st hmem
      have h2 : get_state (trigger_alarm cfg (set_state cfg st "fan" true).1
          10 now).1 "fan" = get_state (set_state cfg st "fan" true).1 "fan" :=
        get_state_fan_after_alarm cfg _ 10 now
          (set_state_initialized cfg st "fan" true hinit)
      by_cases hf : data.flame = 1 <;> by_cases ht : 35 < data.temperature <;>
        simp [check_auto_actions, hg, hf, ht, hoff, h1, h2, fanSetCount]
    · have ht : 35 < data.temperature := by
        rcases hth with h | h
        · exact absurd h hg
        · exact h
      by_cases hf : data.flame = 1 <;>
        simp [check_auto_actions, hg, hf, ht, hoff, halarm, fanSetCount]
  · intro hg ht
    by_cases hf : data.flame = 1 <;>
      simp [check_auto_actions, hg, hf, ht, fanSetCount]

/-- Witness for C7_fan_idempotent: the spec scenario, gas 400 with the fan
currently OFF on a freshly initialized controller, issues exactly one fan
set_state call. -/
theorem C7_fan_idempotent_witness :
    get_state (ac_init defaultACConfig acState0) "fan" ≠ some true ∧
    (350 < (400 : ℚ) ∨ 35 < (20 : ℚ)) ∧
    fanSetCount (check_auto_actions defaultACConfig
      (ac_init defaultACConfig acState0)
      { temperature := 20, humidity := 45, gas := 400, flame := 0,
        distance := 100, timestamp := 0 } 0).2 = 1 :=
  ⟨by decide, by norm_num,
   (C7_fan_idempotent defaultACConfig (ac_init defaultACConfig acState0)
      { temperature := 20, humidity := 45, gas := 400, flame := 0,
        distance := 100, timestamp := 0 } 0 (by decide) rfl).2.1
     (by decide) (by norm_num)⟩

theorem filter_beq_of_all_ne (name : String) (e : String × ℚ × Bool)
    (he : e.1 = name) (l : List (String × ℚ × Bool))
    (hl : ∀ tr ∈ l, tr.1 ≠ name) :
    (l ++ [e]).filter (fun tr => tr.1 == name) = [e] := by
  rw [List.filter_append]
  have h1 : l.filter (fun tr => tr.1 == name) = [] := by
    rw [List.filter_eq_nil_iff]
    intro tr htr
    simp [hl tr htr]
  rw [h1]
  simp [List.filter, he]

theorem alarm_initialized (cfg : ACConfig) (st : ACState) (d t : ℚ)
    (hinit : st.initialized = true) :
    (trigger_alarm cfg st d t).1.initialized = true := by
  by_cases hb : "buzzer" ∈ cfg.relay_pins <;>
    simp [trigger_alarm, set_timed, set_state, hb, hinit]

theorem get_state_after_set_other (cfg : ACConfig) (s : ACState)
    (n : String) (b : Bool) (m : String) (hnm : m ≠ n)
    (hinit : s.initialized = true) :
    get_state (set_state cfg s n b).1 m = get_state s m := by
  by_cases hmem : n ∈ cfg.relay_pins <;>
    simp [set_state, hmem, hinit, get_state, dset, hnm]

theorem alarm_buzzer_on (cfg : ACConfig) (s : ACState) (dur now : ℚ)
    (hbuz : "buzzer" ∈ cfg.relay_pins) (hinit : s.initialized = true) :
    get_state (trigger_alarm cfg s dur now).1 "buzzer" = some true := by
  simp [trigger_alarm, set_timed, set_state, hbuz, hinit, get_state, dset]

theorem alarm_buzzer_timers (cfg : ACConfig) (s : ACState) (dur now : ℚ)
    (hbuz : "buzzer" ∈ cfg.relay_pins) :
    (trigger_alarm cfg s dur now).1.timers.filter
      (fun tr => tr.1 == "buzzer") = [("buzzer", now + dur, false)] := by
  simp only [trigger_alarm, set_timed, set_state, if_pos hbuz, Bool.not_true]
  exact filter_beq_cancel_insert "buzzer" ("buzzer", now + dur, false) rfl _

theorem filter_comm_names (p q : String × ℚ × Bool → Bool)
    (l : List (String × ℚ × Bool)) :
    (l.filter p).filter q = (l.filter q).filter p := by
  rw [List.filter_filter, List.filter_filter]
  congr 1
  funext tr
  exact Bool.and_comm (q tr) (p tr)

theorem set_fan_buzzer_timers (cfg : ACConfig) (s : ACState) (b : Bool)
    (e : String × ℚ × Bool) (hinit : s.initialized = true)
    (he : e.1 = "buzzer")
    (h : s.timers.filter (fun tr => tr.1 == "buzzer") = [e]) :
    (set_state cfg s "fan" b).1.timers.filter
      (fun tr => tr.1 == "buzzer") = [e] := by
  by_cases hm : "fan" ∈ cfg.relay_pins
  · simp only [set_state, if_pos hm, hinit, if_true]
    rw [filter_comm_names, h]
    simp [List.filter, he]
  · simp only [set_state, if_neg hm, hinit, if_true]
    exact h

theorem flame_tail_facts (cfg : ACConfig) (s : ACState) (now : ℚ)
    (hbuz : "buzzer" ∈ cfg.relay_pins) (hinit : s.initialized = true) :
    get_state (trigger_alarm cfg s 10 now).1 "buzzer" = some true ∧
    (trigger_alarm cfg s 10 now).1.timers.filter
      (fun tr => tr.1 == "buzzer") = [("buzzer", now + 10, false)] ∧
    get_state (set_state cfg (trigger_alarm cfg s 10 now).1 "fan"
      true).1 "buzzer" = some true ∧
    (set_state cfg (trigger_alarm cfg s 10 now).1 "fan"
      true).1.timers.filter (fun tr => tr.1 == "buzzer") =
      [("buzzer", now + 10, false)] := by
  have h3 := alarm_initialized cfg s 10 now hinit
  refine ⟨alarm_buzzer_on cfg s 10 now hbuz hinit,
    alarm_buzzer_timers cfg s 10 now hbuz, ?_, ?_⟩
  · rw [get_state_after_set_other cfg _ "fan" true "buzzer" (by decide) h3]
    exact alarm_buzzer_on cfg s 10 now hbuz hinit
  · exact set_fan_buzzer_timers cfg _ true ("buzzer", now + 10, false) h3 rfl
      (alarm_buzzer_timers cfg s 10 now hbuz)

/-- A sensor reading with flame detected and no other threshold exceeded. -/
def flameReading : SensorData :=
  { temperature := 20, humidity := 45, gas := 0, flame := 1,
    distance := 100, timestamp := 0 }

/-- C8: the claim asserts that flame = 1 invokes triggerAlarm with the
configured buzzer duration.  The configured duration
(DetectionConfig.buzzer_duration in src/hardware/config.py) is 5 seconds,
but _check_auto_actions passes the literal 10.0: on a freshly initialized
controller, a flame reading issues the single call trigger_alarm with
duration 10 and leaves one pending buzzer revert firing at +10 s — not at
the configured +5 s. -/
theorem C8_counterexample :
    (check_auto_actions defaultACConfig (ac_init defaultACConfig acState0)
        flameReading 0).2 = [AutoCmd.alarm 10] ∧
    defaultDetectionConfig.buzzer_duration = 5 ∧
    (10 : ℚ) ≠ defaultDetectionConfig.buzzer_duration ∧
    (check_auto_actions defaultACConfig (ac_init defaultACConfig acState0)
        flameReading 0).1.timers = [("buzzer", 10, false)] := by
  refine ⟨?_, rfl, by norm_num [defaultDetectionConfig], ?_⟩ <;>
    norm_num [check_auto_actions, flameReading, get_state, ac_init, acState0,
      defaultACConfig, trigger_alarm, set_timed, set_state, dset]

/-- C8 (amended): every sensor reading with flame = 1 on an initialized
controller whose relay table knows the buzzer invokes trigger_alarm with the
fixed duration 10 s (not the configured buzzer_duration of 5 s): the buzzer
turns ON and exactly one pending revert to OFF remains for it, firing 10 s
after the call. -/
theorem C8_flame_alarm (cfg : ACConfig) (st : ACState) (data : SensorData)
    (now : ℚ) (hflame : data.flame = 1)
    (hbuz : "buzzer" ∈ cfg.relay_pins) (hinit : st.initialized = true) :
    AutoCmd.alarm 10 ∈ (check_auto_actions cfg st data now).2 ∧
    get_state (check_auto_actions cfg st data now).1 "buzzer" = some true ∧
    (check_auto_actions cfg st data now).1.timers.filter
      (fun tr => tr.1 == "buzzer") = [("buzzer", now + 10, false)] := by
  have hsi := set_state_initialized cfg st "fan" true hinit
  have hp1 := flame_tail_facts cfg st now hbuz hinit
  have hp2 := flame_tail_facts cfg (set_state cfg st "fan" true).1 now hbuz hsi
  by_cases hg : 350 < data.gas <;>
    by_cases hfo : get_state st "fan" = some true <;>
    · simp only [check_auto_actions, hflame, hg, hfo, if_true, if_false]
      split_ifs <;>
        simp_all [List.mem_append]

/-- Witness for C8_flame_alarm at the concrete flame reading on a freshly
initialized controller. -/
theorem C8_flame_alarm_witness :
    AutoCmd.alarm 10 ∈ (check_auto_actions defaultACConfig
      (ac_init defaultACConfig acState0) flameReading 0).2 ∧
    get_state (check_auto_actions defaultACConfig
      (ac_init defaultACConfig acState0) flameReading 0).1 "buzzer" =
      some true ∧
    (check_auto_actions defaultACConfig
      (ac_init defaultACConfig acState0) flameReading 0).1.timers.filter
      (fun tr => tr.1 == "buzzer") = [("buzzer", (0 : ℚ) + 10, false)] :=
  C8_flame_alarm defaultACConfig (ac_init defaultACConfig acState0)
    flameReading 0 rfl (by decide) rfl

/-- Combined state of the Pi controller (src/hardware/pi_main.py fields
_last_alert_time and _detection_count) and the backend it posts frames to. -/
structure PiSystem where
  lastAlertTime : ℚ
  detectionCount : Nat
  backend : BackendState

/-- One camera-frame event: the time.time() value when _on_camera_frame
runs, the outcome the backend detector would produce for this frame, and the
backend millisecond clock used for the alert id. -/
structure FrameEv where
  t : ℚ
  detRes : Except String (List Detection)
  tms : Nat

/-- SenseGridPiController._on_camera_frame composed with _run_detection and
_handle_intruder_alert (src/hardware/pi_main.py) and the backend's
detect_intruder: a frame arriving within the cooldown window is dropped
before any detection request; otherwise the frame is posted, the backend
runs the detector (creating an alert and emitting one event when the
detection list is nonempty), and on intruder_detected the Pi increments its
detection count and stamps _last_alert_time.  Detector failures are caught
by _run_detection and only logged. -/
def on_camera_frame (cooldown : ℚ) (userEmail : String) (userId : Nat)
    (sys : PiSystem) (e : FrameEv) : PiSystem :=
  if e.t - sys.lastAlertTime < cooldown then sys
  else
    match detect_intruder sys.backend userEmail userId e.detRes e.tms with
    | (b2, Except.ok resp) =>
        if resp.intruder_detected then
          { lastAlertTime := e.t, detectionCount := sys.detectionCount + 1,
            backend := b2 }
        else { sys with backend := b2 }
    | (b2, Except.error _) => { sys with backend := b2 }

/-- A sequence of camera-frame events processed in order. -/
def run_frames (cooldown : ℚ) (u : String) (uid : Nat) (sys : PiSystem)
    (evs : List FrameEv) : PiSystem :=
  evs.foldl (on_camera_frame cooldown u uid) sys

/-- C2: with the last alert fired at time t0, (i) every sequence of frames
arriving strictly within the cooldown window changes nothing — no alert
record is created, no event is emitted, the whole system state is untouched
— and (ii) a frame arriving once the cooldown has elapsed whose detection
outcome is a nonempty list creates exactly one new alert, emits exactly one
intruder:alert event, and re-stamps the last-alert time. -/
theorem C2_cooldown_suppression (cooldown : ℚ) (u : String) (uid : Nat)
    (sys : PiSystem) (t0 : ℚ) (h0 : sys.lastAlertTime = t0) :
    (∀ evs : List FrameEv, (∀ e ∈ evs, e.t - t0 < cooldown) →
      run_frames cooldown u uid sys evs = sys) ∧
    (∀ (e : FrameEv) (ds : List Detection), cooldown ≤ e.t - t0 →
      e.detRes = Except.ok ds → ds ≠ [] →
      (on_camera_frame cooldown u uid sys e).backend.alerts =
        sys.backend.alerts ++
          [{ alert_id := "alert-" ++ toString e.tms, home_id := u,
             snapshot_url := none, ts := e.tms, resolved := false,
             user_id := uid }] ∧
      (on_camera_frame cooldown u uid sys e).backend.events =
        sys.backend.events ++ ["intruder:alert"] ∧
      (on_camera_frame cooldown u uid sys e).lastAlertTime = e.t) := by
  constructor
  · intro evs h
    induction evs with
    | nil => rfl
    | cons e rest ih =>
        have h1 : on_camera_frame cooldown u uid sys e = sys := by
          rw [on_camera_frame, if_pos]
          rw [h0]
          exact h e (by simp)
        show run_frames cooldown u uid (on_camera_frame cooldown u uid sys e)
          rest = sys
        rw [h1]
        exact ih (fun e2 he2 => h e2 (by simp [he2]))
  · intro e ds hc hres hne
    have hlen : ds.length > 0 := List.length_pos.mpr hne
    have hnotlt : ¬ e.t - sys.lastAlertTime < cooldown := by
      rw [h0]
      exact not_lt.mpr hc
    rw [on_camera_frame, if_neg hnotlt, hres]
    simp [detect_intruder, hlen]

/-- Witness for C2_cooldown_suppression: cooldown 60 s, last fire at 0; a
qualifying frame at 30 s is suppressed entirely, and a qualifying frame at
70 s creates exactly one alert. -/
theorem C2_cooldown_witness :
    run_frames 60 "pi@sensegrid.local" 1
      { lastAlertTime := 0, detectionCount := 0, backend := backend0 }
      [{ t := 30, detRes := Except.ok [{ cls := "Human", confidence := 87/100 }],
         tms := 30000 }] =
      { lastAlertTime := 0, detectionCount := 0, backend := backend0 } ∧
    (on_camera_frame 60 "pi@sensegrid.local" 1
      { lastAlertTime := 0, detectionCount := 0, backend := backend0 }
      { t := 70, detRes := Except.ok [{ cls := "Human", confidence := 87/100 }],
        tms := 70000 }).backend.alerts =
      backend0.alerts ++
        [{ alert_id := "alert-" ++ toString 70000, home_id := "pi@sensegrid.local",
           snapshot_url := none, ts := 70000, resolved := false,
           user_id := 1 }] := by
  constructor
  · exact (C2_cooldown_suppression 60 "pi@sensegrid.local" 1
      { lastAlertTime := 0, detectionCount := 0, backend := backend0 } 0
      rfl).1 _ (by intro e2 he2; simp at he2; rw [he2]; norm_num)
  · exact ((C2_cooldown_suppression 60 "pi@sensegrid.local" 1
      { lastAlertTime := 0, detectionCount := 0, backend := backend0 } 0
      rfl).2 _ [{ cls := "Human", confidence := 87/100 }]
      (by norm_num) rfl (List.cons_ne_nil _ _)).1

end SenseGrid
